import Mathlib

/-!
Shallow embedding of `src/contracts/EmployeeSatisfactionSurvey.sol`.

Encrypted `euint32` handles are modelled, as the specification's idealized
Capability Provider prescribes, by their plaintext values reduced modulo
2^32: `FHE.add` is addition mod 2^32 and the uninitialized handle is 0.
`FHE.fromExternal` is modelled by a ciphertext record carrying the
encrypted plaintext together with a flag saying whether its zk proof
verifies; verification failure is the `InvalidProof` outcome.
Decryption-permission calls (`FHE.allowThis` / `FHE.allow`) are modelled by
appending entries to an explicit grant log.  Every contract entry point
returns the pair of its result (or typed error) and the post-state; the
post-state returned with an error is whatever state the function had
mutated before the failure point, so transaction-atomicity claims are
genuine statements about the order of checks and writes in the source.
-/

deriving instance DecidableEq for Except

namespace EmployeeSurvey

/-- 2^32, the modulus of `euint32` arithmetic. -/
def M32 : Nat := 4294967296

/-- An external ciphertext together with its zk proof: `val` is the
encrypted plaintext, `proofOk` says whether the proof verifies. -/
structure ExtInput where
  val : Nat
  proofOk : Bool
deriving DecidableEq

/-- `FHE.fromExternal`: yields the euint32 handle when the proof
verifies, `none` (the `InvalidProof` revert) otherwise. -/
def fromExternal (e : ExtInput) : Option Nat :=
  if e.proofOk then some (e.val % M32) else none

/-- The four typed failure outcomes of the contract. -/
inductive SurveyError where
  | DuplicateSubmission
  | InvalidProof
  | Unauthorized
  | NotAManager
deriving DecidableEq

/-- An aggregate resource on which decryption capability can be granted:
the global sum/count accumulators and the per-department ones. -/
inductive Resource where
  | globalSum
  | globalCount
  | deptSum (d : Nat)
  | deptCount (d : Nat)
deriving DecidableEq

/-- The receiver of a grant: the contract itself (`FHE.allowThis`) or an
address (`FHE.allow`). -/
inductive Grantee where
  | self
  | addr (a : Nat)
deriving DecidableEq

/-- The `SurveyResponse` struct stored in the `responses` array. -/
structure SurveyResponse where
  satisfactionRating : Nat
  departmentId : Nat
  encryptedFeedback : List Nat
  timestamp : Nat
  employeeAddress : Nat
deriving DecidableEq

/-- The contract's storage, plus the grant log recording every
`allowThis`/`allow` call ever issued. -/
structure State where
  deployer : Nat
  managers : Nat → Bool
  hasSubmittedToDepartment : Nat → Nat → Bool
  responses : List SurveyResponse
  totalRatingSum : Nat
  responseCount : Nat
  departmentRatingSum : Nat → Nat
  departmentResponseCount : Nat → Nat
  grants : List (Grantee × Resource)

/-- The constructor: records the deployer and makes it a manager. -/
def initialState (sender : Nat) : State where
  deployer := sender
  managers := fun a => if a = sender then true else false
  hasSubmittedToDepartment := fun _ _ => false
  responses := []
  totalRatingSum := 0
  responseCount := 0
  departmentRatingSum := fun _ => 0
  departmentResponseCount := fun _ => 0
  grants := []

/-- `submitSurvey`: dedup check, two proof-checked ingestions, record
append, global and per-department accumulator updates, the eight
permission grants (contract itself and deployer, on the global pair and
the submitted department's pair), dedup-flag write, in source order.
Returns the emitted response id `responses.length - 1`. -/
def submitSurvey (s : State) (sender : Nat)
    (encryptedRating encryptedDepartment : ExtInput)
    (plaintextDepartmentId : Nat)
    (encryptedFeedback : List Nat) (timestamp : Nat) :
    Except SurveyError Nat × State :=
  if s.hasSubmittedToDepartment sender plaintextDepartmentId then
    (.error .DuplicateSubmission, s)
  else
    match fromExternal encryptedRating with
    | none => (.error .InvalidProof, s)
    | some rating =>
      match fromExternal encryptedDepartment with
      | none => (.error .InvalidProof, s)
      | some department =>
        (.ok s.responses.length,
          { s with
            responses := s.responses ++
              [{ satisfactionRating := rating
                 departmentId := department
                 encryptedFeedback := encryptedFeedback
                 timestamp := timestamp
                 employeeAddress := sender }]
            totalRatingSum := (s.totalRatingSum + rating) % M32
            responseCount := (s.responseCount + 1) % M32
            departmentRatingSum := fun d =>
              if d = plaintextDepartmentId then
                (s.departmentRatingSum plaintextDepartmentId + rating) % M32
              else s.departmentRatingSum d
            departmentResponseCount := fun d =>
              if d = plaintextDepartmentId then
                (s.departmentResponseCount plaintextDepartmentId + 1) % M32
              else s.departmentResponseCount d
            grants := s.grants ++
              [(.self, .globalSum), (.self, .globalCount),
               (.addr s.deployer, .globalSum), (.addr s.deployer, .globalCount),
               (.self, .deptSum plaintextDepartmentId),
               (.self, .deptCount plaintextDepartmentId),
               (.addr s.deployer, .deptSum plaintextDepartmentId),
               (.addr s.deployer, .deptCount plaintextDepartmentId)]
            hasSubmittedToDepartment := fun a d =>
              if a = sender ∧ d = plaintextDepartmentId then true
              else s.hasSubmittedToDepartment a d })

/-- `addManager`: `onlyManager` gate, sets the flag, and when at least one
response exists grants the target the two global resources. -/
def addManager (s : State) (sender target : Nat) :
    Except SurveyError Unit × State :=
  if s.managers sender then
    let s1 := { s with managers := fun a => if a = target then true else s.managers a }
    if 0 < s.responses.length then
      (.ok (), { s1 with grants := s1.grants ++
        [(.addr target, .globalSum), (.addr target, .globalCount)] })
    else
      (.ok (), s1)
  else (.error .Unauthorized, s)

/-- `removeManager`: `onlyManager` gate, clears the flag; the grant log is
untouched. -/
def removeManager (s : State) (sender target : Nat) :
    Except SurveyError Unit × State :=
  if s.managers sender then
    (.ok (), { s with managers := fun a => if a = target then false else s.managers a })
  else (.error .Unauthorized, s)

/-- `grantDepartmentAccess`: `onlyManager` gate, requires the target to be
a manager, then grants the target the department's sum/count pair. -/
def grantDepartmentAccess (s : State) (sender target departmentId : Nat) :
    Except SurveyError Unit × State :=
  if s.managers sender then
    if s.managers target then
      (.ok (), { s with grants := s.grants ++
        [(.addr target, .deptSum departmentId), (.addr target, .deptCount departmentId)] })
    else (.error .NotAManager, s)
  else (.error .Unauthorized, s)

/-- `grantMultipleDepartmentAccess`: same gates, then the department loop
granting sum/count per element in order. -/
def grantMultipleDepartmentAccess (s : State) (sender target : Nat)
    (departmentIds : List Nat) : Except SurveyError Unit × State :=
  if s.managers sender then
    if s.managers target then
      (.ok (), { s with grants := (departmentIds.foldl
        (fun g d => g ++ [(.addr target, .deptSum d), (.addr target, .deptCount d)])
        s.grants) })
    else (.error .NotAManager, s)
  else (.error .Unauthorized, s)

/-- `getResponseCount`: manager-gated, returns the stored handle. -/
def getResponseCount (s : State) (sender : Nat) : Except SurveyError Nat :=
  if s.managers sender then .ok s.responseCount else .error .Unauthorized

/-- `getTotalRatingSum`: manager-gated, returns the stored handle. -/
def getTotalRatingSum (s : State) (sender : Nat) : Except SurveyError Nat :=
  if s.managers sender then .ok s.totalRatingSum else .error .Unauthorized

/-- `getDepartmentStats`: manager-gated, returns the department's stored
sum and count handles. -/
def getDepartmentStats (s : State) (sender departmentId : Nat) :
    Except SurveyError (Nat × Nat) :=
  if s.managers sender then
    .ok (s.departmentRatingSum departmentId, s.departmentResponseCount departmentId)
  else .error .Unauthorized

/-- `getResponseArrayLength`: unrestricted plain length of the log. -/
def getResponseArrayLength (s : State) : Nat := s.responses.length

/-- A state-mutating transaction against the contract. -/
inductive Op where
  | submit (sender : Nat) (encryptedRating encryptedDepartment : ExtInput)
      (plaintextDepartmentId : Nat) (encryptedFeedback : List Nat) (timestamp : Nat)
  | addMgr (sender target : Nat)
  | removeMgr (sender target : Nat)
  | grantDept (sender target departmentId : Nat)
  | grantMulti (sender target : Nat) (departmentIds : List Nat)
deriving DecidableEq

/-- Effect of one transaction on storage (a reverted transaction leaves
the state unchanged, which each entry point already guarantees). -/
def applyOp (s : State) (op : Op) : State :=
  match op with
  | .submit sender er ed pid fb ts => (submitSurvey s sender er ed pid fb ts).2
  | .addMgr sender target => (addManager s sender target).2
  | .removeMgr sender target => (removeManager s sender target).2
  | .grantDept sender target d => (grantDepartmentAccess s sender target d).2
  | .grantMulti sender target ds => (grantMultipleDepartmentAccess s sender target ds).2

/-- Run a sequence of transactions. -/
def run (s : State) : List Op → State
  | [] => s
  | op :: ops => run (applyOp s op) ops

/-- Ghost record of one accepted submission: who, the plaintext
department argument, and the euint32 rating value ingested. -/
structure AcceptedSub where
  sender : Nat
  dept : Nat
  rating : Nat
deriving DecidableEq

/-- The accepted submission, if any, contributed by one transaction. -/
def acceptedOfOp (s : State) (op : Op) : List AcceptedSub :=
  match op with
  | .submit sender er ed pid fb ts =>
    match (submitSurvey s sender er ed pid fb ts).1 with
    | .ok _ => [{ sender := sender, dept := pid, rating := er.val % M32 }]
    | .error _ => []
  | _ => []

/-- Ghost trace of the accepted submissions along a run. -/
def accepted (s : State) : List Op → List AcceptedSub
  | [] => []
  | op :: ops => acceptedOfOp s op ++ accepted (applyOp s op) ops

/-- Sum of the rating values of a list of accepted submissions. -/
def ratingSum (l : List AcceptedSub) : Nat := (l.map AcceptedSub.rating).sum

/-- Whether an accepted submission targeted department `c`. -/
def inDept (c : Nat) (a : AcceptedSub) : Bool := a.dept == c

/-- The accepted submissions of a trace restricted to department `c`. -/
def deptTrace (c : Nat) (l : List AcceptedSub) : List AcceptedSub := l.filter (inDept c)

/-- The fields of a stored response other than the department handle. -/
def publicFields (r : SurveyResponse) : Nat × List Nat × Nat × Nat :=
  (r.satisfactionRating, r.encryptedFeedback, r.timestamp, r.employeeAddress)

/-- A sample rating ciphertext (plaintext 5) whose proof verifies. -/
def sampleRating : ExtInput := { val := 5, proofOk := true }

/-- A sample department ciphertext (plaintext 1) whose proof verifies. -/
def sampleDept : ExtInput := { val := 1, proofOk := true }

/-- A second department ciphertext (plaintext 7) whose proof verifies. -/
def sampleDept2 : ExtInput := { val := 7, proofOk := true }

/-- A ciphertext whose proof fails verification. -/
def badProof : ExtInput := { val := 5, proofOk := false }

end EmployeeSurvey

namespace EmployeeSurvey

theorem M32_pos : 0 < M32 := by norm_num [M32]

/-- Explicit form of an accepted `submitSurvey` call. -/
theorem submit_post (s : State) (sender : Nat) (er ed : ExtInput) (pid : Nat)
    (fb : List Nat) (ts : Nat)
    (h1 : s.hasSubmittedToDepartment sender pid = false)
    (h2 : er.proofOk = true) (h3 : ed.proofOk = true) :
    submitSurvey s sender er ed pid fb ts =
      (.ok s.responses.length,
        { s with
          responses := s.responses ++
            [{ satisfactionRating := er.val % M32
               departmentId := ed.val % M32
               encryptedFeedback := fb
               timestamp := ts
               employeeAddress := sender }]
          totalRatingSum := (s.totalRatingSum + er.val % M32) % M32
          responseCount := (s.responseCount + 1) % M32
          departmentRatingSum := fun d =>
            if d = pid then (s.departmentRatingSum pid + er.val % M32) % M32
            else s.departmentRatingSum d
          departmentResponseCount := fun d =>
            if d = pid then (s.departmentResponseCount pid + 1) % M32
            else s.departmentResponseCount d
          grants := s.grants ++
            [(.self, .globalSum), (.self, .globalCount),
             (.addr s.deployer, .globalSum), (.addr s.deployer, .globalCount),
             (.self, .deptSum pid), (.self, .deptCount pid),
             (.addr s.deployer, .deptSum pid), (.addr s.deployer, .deptCount pid)]
          hasSubmittedToDepartment := fun a d =>
            if a = sender ∧ d = pid then true
            else s.hasSubmittedToDepartment a d }) := by
  simp [submitSurvey, fromExternal, h1, h2, h3]

/-- A rejected `submitSurvey` call returns the caller's state untouched. -/
theorem submit_error_frame (s : State) (sender : Nat) (er ed : ExtInput) (pid : Nat)
    (fb : List Nat) (ts : Nat) (e : SurveyError)
    (h : (submitSurvey s sender er ed pid fb ts).1 = .error e) :
    (submitSurvey s sender er ed pid fb ts).2 = s := by
  by_cases hd : s.hasSubmittedToDepartment sender pid = true
  · simp [submitSurvey, hd]
  · by_cases h2 : er.proofOk = true
    · by_cases h3 : ed.proofOk = true
      · rw [submit_post s sender er ed pid fb ts (by simpa using hd) h2 h3] at h
        simp at h
      · simp [submitSurvey, fromExternal, hd, h2, h3]
    · simp [submitSurvey, fromExternal, hd, h2]

/-- What an accepted `submitSurvey` call implies about its inputs. -/
theorem submit_ok_elim (s : State) (sender : Nat) (er ed : ExtInput) (pid : Nat)
    (fb : List Nat) (ts : Nat) (rid : Nat)
    (h : (submitSurvey s sender er ed pid fb ts).1 = .ok rid) :
    s.hasSubmittedToDepartment sender pid = false ∧ er.proofOk = true ∧
      ed.proofOk = true ∧ rid = s.responses.length := by
  by_cases hd : s.hasSubmittedToDepartment sender pid = true
  · simp [submitSurvey, hd] at h
  · by_cases h2 : er.proofOk = true
    · by_cases h3 : ed.proofOk = true
      · rw [submit_post s sender er ed pid fb ts (by simpa using hd) h2 h3] at h
        simp at h
        simp [hd, h2, h3, h]
      · simp [submitSurvey, fromExternal, hd, h2, h3] at h
    · simp [submitSurvey, fromExternal, hd, h2] at h

/-- With the dedup flag clear, `submitSurvey` never reports a duplicate. -/
theorem submit_not_dup (s : State) (sender : Nat) (er ed : ExtInput) (pid : Nat)
    (fb : List Nat) (ts : Nat)
    (h : s.hasSubmittedToDepartment sender pid = false) :
    (submitSurvey s sender er ed pid fb ts).1 ≠ .error .DuplicateSubmission := by
  by_cases h2 : er.proofOk = true
  · by_cases h3 : ed.proofOk = true
    · rw [submit_post s sender er ed pid fb ts h h2 h3]
      simp
    · simp [submitSurvey, fromExternal, h, h2, h3]
  · simp [submitSurvey, fromExternal, h, h2]

end EmployeeSurvey

namespace EmployeeSurvey

/-- One transaction contributes at most one accepted submission. -/
theorem acceptedOfOp_cases (s : State) (op : Op) :
    acceptedOfOp s op = [] ∨ ∃ a, acceptedOfOp s op = [a] := by
  cases op with
  | submit sender er ed pid fb ts =>
    cases hr : (submitSurvey s sender er ed pid fb ts).1 with
    | ok rid =>
      exact Or.inr ⟨{ sender := sender, dept := pid, rating := er.val % M32 },
        by simp [acceptedOfOp, hr]⟩
    | error e => exact Or.inl (by simp [acceptedOfOp, hr])
  | addMgr sender target => exact Or.inl rfl
  | removeMgr sender target => exact Or.inl rfl
  | grantDept sender target d => exact Or.inl rfl
  | grantMulti sender target ds => exact Or.inl rfl

/-- A transaction that accepts no submission leaves every accumulator
unchanged. -/
theorem applyOp_accepted_none (s : State) (op : Op)
    (h : acceptedOfOp s op = []) :
    (applyOp s op).responseCount = s.responseCount ∧
    (applyOp s op).totalRatingSum = s.totalRatingSum ∧
    (applyOp s op).departmentRatingSum = s.departmentRatingSum ∧
    (applyOp s op).departmentResponseCount = s.departmentResponseCount := by
  cases op with
  | submit sender er ed pid fb ts =>
    cases hr : (submitSurvey s sender er ed pid fb ts).1 with
    | ok rid => simp [acceptedOfOp, hr] at h
    | error e =>
      rw [applyOp, submit_error_frame s sender er ed pid fb ts e hr]
      exact ⟨rfl, rfl, rfl, rfl⟩
  | addMgr sender target =>
    by_cases hm : s.managers sender = true
    · by_cases hl : 0 < s.responses.length <;>
        simp [applyOp, addManager, hm, hl]
    · simp [applyOp, addManager, hm]
  | removeMgr sender target =>
    by_cases hm : s.managers sender = true <;>
      simp [applyOp, removeManager, hm]
  | grantDept sender target d =>
    by_cases hm : s.managers sender = true
    · by_cases ht : s.managers target = true <;>
        simp [applyOp, grantDepartmentAccess, hm, ht]
    · simp [applyOp, grantDepartmentAccess, hm]
  | grantMulti sender target ds =>
    by_cases hm : s.managers sender = true
    · by_cases ht : s.managers target = true <;>
        simp [applyOp, grantMultipleDepartmentAccess, hm, ht]
    · simp [applyOp, grantMultipleDepartmentAccess, hm]

/-- A transaction that accepts a submission performs exactly the four
accumulator updates of the source. -/
theorem applyOp_accepted_one (s : State) (op : Op) (a : AcceptedSub)
    (h : acceptedOfOp s op = [a]) :
    (applyOp s op).responseCount = (s.responseCount + 1) % M32 ∧
    (applyOp s op).totalRatingSum = (s.totalRatingSum + a.rating) % M32 ∧
    (applyOp s op).departmentRatingSum =
      (fun d => if d = a.dept then (s.departmentRatingSum a.dept + a.rating) % M32
                else s.departmentRatingSum d) ∧
    (applyOp s op).departmentResponseCount =
      (fun d => if d = a.dept then (s.departmentResponseCount a.dept + 1) % M32
                else s.departmentResponseCount d) := by
  cases op with
  | submit sender er ed pid fb ts =>
    cases hr : (submitSurvey s sender er ed pid fb ts).1 with
    | error e => simp [acceptedOfOp, hr] at h
    | ok rid =>
      obtain ⟨h1, h2, h3, -⟩ := submit_ok_elim s sender er ed pid fb ts rid hr
      have hp := submit_post s sender er ed pid fb ts h1 h2 h3
      simp only [acceptedOfOp, hr] at h
      injection h with h4 h5
      subst h4
      rw [applyOp, hp]
      exact ⟨rfl, rfl, rfl, rfl⟩
  | addMgr sender target => simp [acceptedOfOp] at h
  | removeMgr sender target => simp [acceptedOfOp] at h
  | grantDept sender target d => simp [acceptedOfOp] at h
  | grantMulti sender target ds => simp [acceptedOfOp] at h

/-- The grant loop of `grantMultipleDepartmentAccess` only appends. -/
theorem grants_foldl_mono (target : Nat) (ds : List Nat) :
    ∀ (init : List (Grantee × Resource)) (g : Grantee × Resource), g ∈ init →
      g ∈ ds.foldl
        (fun g2 d => g2 ++ [(.addr target, .deptSum d), (.addr target, .deptCount d)])
        init := by
  induction ds with
  | nil => intro init g hg; simpa using hg
  | cons d ds ih =>
    intro init g hg
    simp only [List.foldl_cons]
    exact ih _ g (List.mem_append_left _ hg)

/-- No transaction ever removes a grant-log entry. -/
theorem applyOp_grants_mono (s : State) (op : Op) (g : Grantee × Resource)
    (hg : g ∈ s.grants) : g ∈ (applyOp s op).grants := by
  cases op with
  | submit sender er ed pid fb ts =>
    cases hr : (submitSurvey s sender er ed pid fb ts).1 with
    | error e =>
      rw [applyOp, submit_error_frame s sender er ed pid fb ts e hr]
      exact hg
    | ok rid =>
      obtain ⟨h1, h2, h3, -⟩ := submit_ok_elim s sender er ed pid fb ts rid hr
      rw [applyOp, submit_post s sender er ed pid fb ts h1 h2 h3]
      exact List.mem_append_left _ hg
  | addMgr sender target =>
    by_cases hm : s.managers sender = true
    · by_cases hl : 0 < s.responses.length <;>
        simp [applyOp, addManager, hm, hl, hg]
    · simp [applyOp, addManager, hm, hg]
  | removeMgr sender target =>
    by_cases hm : s.managers sender = true <;>
      simp [applyOp, removeManager, hm, hg]
  | grantDept sender target d =>
    by_cases hm : s.managers sender = true
    · by_cases ht : s.managers target = true <;>
        simp [applyOp, grantDepartmentAccess, hm, ht, hg]
    · simp [applyOp, grantDepartmentAccess, hm, hg]
  | grantMulti sender target ds =>
    by_cases hm : s.managers sender = true
    · by_cases ht : s.managers target = true
      · simp only [applyOp, grantMultipleDepartmentAccess, hm, ht, if_true]
        exact grants_foldl_mono target ds s.grants g hg
      · simp [applyOp, grantMultipleDepartmentAccess, hm, ht, hg]
    · simp [applyOp, grantMultipleDepartmentAccess, hm, hg]

/-- Grant-log entries survive any sequence of transactions. -/
theorem run_grants_mono (ops : List Op) :
    ∀ (s : State) (g : Grantee × Resource), g ∈ s.grants → g ∈ (run s ops).grants := by
  induction ops with
  | nil => intro s g hg; exact hg
  | cons op ops ih =>
    intro s g hg
    exact ih (applyOp s op) g (applyOp_grants_mono s op g hg)

end EmployeeSurvey

namespace EmployeeSurvey

theorem ratingSum_append (l1 l2 : List AcceptedSub) :
    ratingSum (l1 ++ l2) = ratingSum l1 + ratingSum l2 := by
  simp [ratingSum]

theorem deptTrace_append (c : Nat) (l1 l2 : List AcceptedSub) :
    deptTrace c (l1 ++ l2) = deptTrace c l1 ++ deptTrace c l2 := by
  simp [deptTrace]

/-- The response counter accumulates one per accepted submission, mod 2^32. -/
theorem run_responseCount (ops : List Op) :
    ∀ s : State, s.responseCount < M32 →
      (run s ops).responseCount = (s.responseCount + (accepted s ops).length) % M32 := by
  induction ops with
  | nil =>
    intro s h
    simp [run, accepted, Nat.mod_eq_of_lt h]
  | cons op ops ih =>
    intro s h
    simp only [run, accepted, List.length_append]
    rcases acceptedOfOp_cases s op with hl | ⟨a, hl⟩
    · have hn := applyOp_accepted_none s op hl
      rw [ih (applyOp s op) (by rw [hn.1]; exact h), hn.1, hl]
      simp
    · have ho := applyOp_accepted_one s op a hl
      have hlt : (applyOp s op).responseCount < M32 := by
        rw [ho.1]; exact Nat.mod_lt _ M32_pos
      rw [ih (applyOp s op) hlt, ho.1, Nat.mod_add_mod, hl]
      congr 1
      simp
      omega

/-- The global rating sum accumulates each accepted rating, mod 2^32. -/
theorem run_totalRatingSum (ops : List Op) :
    ∀ s : State, s.totalRatingSum < M32 →
      (run s ops).totalRatingSum = (s.totalRatingSum + ratingSum (accepted s ops)) % M32 := by
  induction ops with
  | nil =>
    intro s h
    simp [run, accepted, ratingSum, Nat.mod_eq_of_lt h]
  | cons op ops ih =>
    intro s h
    simp only [run, accepted, ratingSum_append]
    rcases acceptedOfOp_cases s op with hl | ⟨a, hl⟩
    · have hn := applyOp_accepted_none s op hl
      rw [ih (applyOp s op) (by rw [hn.2.1]; exact h), hn.2.1, hl]
      simp [ratingSum]
    · have ho := applyOp_accepted_one s op a hl
      have hlt : (applyOp s op).totalRatingSum < M32 := by
        rw [ho.2.1]; exact Nat.mod_lt _ M32_pos
      rw [ih (applyOp s op) hlt, ho.2.1, Nat.mod_add_mod, hl]
      congr 1
      simp [ratingSum]
      omega

/-- The per-department rating sum accumulates exactly the accepted ratings
for that department, mod 2^32. -/
theorem run_deptRatingSum (ops : List Op) (c : Nat) :
    ∀ s : State, s.departmentRatingSum c < M32 →
      (run s ops).departmentRatingSum c
        = (s.departmentRatingSum c + ratingSum (deptTrace c (accepted s ops))) % M32 := by
  induction ops with
  | nil =>
    intro s h
    simp [run, accepted, deptTrace, ratingSum, Nat.mod_eq_of_lt h]
  | cons op ops ih =>
    intro s h
    simp only [run, accepted, deptTrace_append, ratingSum_append]
    rcases acceptedOfOp_cases s op with hl | ⟨a, hl⟩
    · have hn := applyOp_accepted_none s op hl
      rw [ih (applyOp s op) (by rw [hn.2.2.1]; exact h), hn.2.2.1, hl]
      simp [deptTrace, ratingSum]
    · have ho := applyOp_accepted_one s op a hl
      by_cases hc : c = a.dept
      · have hv : (applyOp s op).departmentRatingSum c
            = (s.departmentRatingSum c + a.rating) % M32 := by
          rw [ho.2.2.1]; simp [hc]
        have hlt : (applyOp s op).departmentRatingSum c < M32 := by
          rw [hv]; exact Nat.mod_lt _ M32_pos
        rw [ih (applyOp s op) hlt, hv, Nat.mod_add_mod, hl]
        congr 1
        simp [deptTrace, ratingSum, inDept, hc]
        omega
      · have hv : (applyOp s op).departmentRatingSum c = s.departmentRatingSum c := by
          rw [ho.2.2.1]; simp [hc]
        rw [ih (applyOp s op) (by rw [hv]; exact h), hv, hl]
        have hskip : deptTrace c [a] = [] := by
          simp [deptTrace, inDept]
          omega
        rw [hskip]
        simp [ratingSum]

/-- The per-department response count accumulates one per accepted
submission for that department, mod 2^32. -/
theorem run_deptResponseCount (ops : List Op) (c : Nat) :
    ∀ s : State, s.departmentResponseCount c < M32 →
      (run s ops).departmentResponseCount c
        = (s.departmentResponseCount c + (deptTrace c (accepted s ops)).length) % M32 := by
  induction ops with
  | nil =>
    intro s h
    simp [run, accepted, deptTrace, Nat.mod_eq_of_lt h]
  | cons op ops ih =>
    intro s h
    simp only [run, accepted, deptTrace_append, List.length_append]
    rcases acceptedOfOp_cases s op with hl | ⟨a, hl⟩
    · have hn := applyOp_accepted_none s op hl
      rw [ih (applyOp s op) (by rw [hn.2.2.2]; exact h), hn.2.2.2, hl]
      simp [deptTrace]
    · have ho := applyOp_accepted_one s op a hl
      by_cases hc : c = a.dept
      · have hv : (applyOp s op).departmentResponseCount c
            = (s.departmentResponseCount c + 1) % M32 := by
          rw [ho.2.2.2]; simp [hc]
        have hlt : (applyOp s op).departmentResponseCount c < M32 := by
          rw [hv]; exact Nat.mod_lt _ M32_pos
        rw [ih (applyOp s op) hlt, hv, Nat.mod_add_mod, hl]
        congr 1
        simp [deptTrace, inDept, hc]
        omega
      · have hv : (applyOp s op).departmentResponseCount c = s.departmentResponseCount c := by
          rw [ho.2.2.2]; simp [hc]
        rw [ih (applyOp s op) (by rw [hv]; exact h), hv, hl]
        have hskip : deptTrace c [a] = [] := by
          simp [deptTrace, inDept]
          omega
        rw [hskip]
        simp

end EmployeeSurvey

namespace EmployeeSurvey

/-- With the dedup flag set, `submitSurvey` rejects immediately. -/
theorem submit_dup (s : State) (sender : Nat) (er ed : ExtInput) (pid : Nat)
    (fb : List Nat) (ts : Nat)
    (h : s.hasSubmittedToDepartment sender pid = true) :
    submitSurvey s sender er ed pid fb ts = (.error .DuplicateSubmission, s) := by
  simp [submitSurvey, h]

/-- C2: `submitSurvey` fails with `DuplicateSubmission` exactly when the
dedup flag for the (identity, department) pair is already set at call
time; a first accepted submission comes from a clear flag, sets it, and
makes an immediately following submission by the same identity to the
same department fail with `DuplicateSubmission`. -/
theorem submit_dedup_gate (s s2 : State) (i c : Nat)
    (er ed er2 ed2 er3 ed3 : ExtInput) (fb fb2 fb3 : List Nat)
    (ts ts2 ts3 : Nat) (rid : Nat)
    (hok : (submitSurvey s i er ed c fb ts).1 = .ok rid) :
    s.hasSubmittedToDepartment i c = false ∧
    (submitSurvey s i er ed c fb ts).2.hasSubmittedToDepartment i c = true ∧
    (submitSurvey (submitSurvey s i er ed c fb ts).2 i er2 ed2 c fb2 ts2).1
      = .error .DuplicateSubmission ∧
    ((submitSurvey s2 i er3 ed3 c fb3 ts3).1 = .error .DuplicateSubmission ↔
      s2.hasSubmittedToDepartment i c = true) := by
  obtain ⟨h1, h2, h3, -⟩ := submit_ok_elim s i er ed c fb ts rid hok
  have hp := submit_post s i er ed c fb ts h1 h2 h3
  have hpost : (submitSurvey s i er ed c fb ts).2.hasSubmittedToDepartment i c = true := by
    rw [hp]; simp
  refine ⟨h1, hpost, by rw [submit_dup _ _ _ _ _ _ _ hpost], ?_⟩
  constructor
  · intro hderr
    by_contra hfalse
    exact submit_not_dup s2 i er3 ed3 c fb3 ts3 (by simpa using hfalse) hderr
  · intro htrue
    rw [submit_dup _ _ _ _ _ _ _ htrue]

/-- C2 witness: alice's first submission to department 2 is accepted, the
flag is set, and her immediate second submission is rejected as a
duplicate. -/
theorem submit_dedup_gate_witness :
    (submitSurvey (initialState 0) 1 sampleRating sampleDept 2 [] 10).1 = .ok 0 ∧
    ((initialState 0).hasSubmittedToDepartment 1 2 = false ∧
      (submitSurvey (initialState 0) 1 sampleRating sampleDept 2 [] 10).2.hasSubmittedToDepartment 1 2 = true ∧
      (submitSurvey (submitSurvey (initialState 0) 1 sampleRating sampleDept 2 [] 10).2
          1 sampleRating sampleDept 2 [] 11).1 = .error .DuplicateSubmission ∧
      ((submitSurvey (initialState 0) 1 sampleRating sampleDept 2 [] 12).1
          = .error .DuplicateSubmission ↔
        (initialState 0).hasSubmittedToDepartment 1 2 = true)) :=
  ⟨by decide,
    submit_dedup_gate (initialState 0) (initialState 0) 1 2 sampleRating sampleDept
      sampleRating sampleDept sampleRating sampleDept [] [] [] 10 11 12 0 (by decide)⟩

/-- C3: starting from the initial state, after any sequence of
transactions the global count handle holds the number of accepted
submissions and the global sum handle holds the sum of their rating
values, both mod 2^32 (idealized provider: `add` is homomorphic addition,
the uninitialized handle is 0). -/
theorem global_accumulator_trace (d : Nat) (ops : List Op) :
    (run (initialState d) ops).responseCount
      = (accepted (initialState d) ops).length % M32 ∧
    (run (initialState d) ops).totalRatingSum
      = ratingSum (accepted (initialState d) ops) % M32 := by
  have h1 := run_responseCount ops (initialState d) (by norm_num [initialState, M32])
  have h2 := run_totalRatingSum ops (initialState d) (by norm_num [initialState, M32])
  constructor
  · rw [h1]; norm_num [initialState]
  · rw [h2]; norm_num [initialState]

/-- C5: a failed `submitSurvey` (duplicate or invalid proof) returns the
caller's state unchanged: no dedup write, no accumulator update, no
record append, no grant. -/
theorem submit_failure_atomic (s : State) (sender : Nat) (er ed : ExtInput)
    (pid : Nat) (fb : List Nat) (ts : Nat) (e : SurveyError)
    (h : (submitSurvey s sender er ed pid fb ts).1 = .error e) :
    (submitSurvey s sender er ed pid fb ts).2 = s ∧
    (submitSurvey s sender er ed pid fb ts).2.hasSubmittedToDepartment
      = s.hasSubmittedToDepartment ∧
    (submitSurvey s sender er ed pid fb ts).2.responses = s.responses ∧
    (submitSurvey s sender er ed pid fb ts).2.grants = s.grants := by
  have hf := submit_error_frame s sender er ed pid fb ts e h
  exact ⟨hf, by rw [hf], by rw [hf], by rw [hf]⟩

/-- C5 witness: a submission with a failing rating proof is rejected with
`InvalidProof` and leaves the initial state untouched. -/
theorem submit_failure_atomic_witness :
    (submitSurvey (initialState 0) 1 badProof sampleDept 2 [] 10).1
      = .error .InvalidProof ∧
    ((submitSurvey (initialState 0) 1 badProof sampleDept 2 [] 10).2 = initialState 0 ∧
      (submitSurvey (initialState 0) 1 badProof sampleDept 2 [] 10).2.hasSubmittedToDepartment
        = (initialState 0).hasSubmittedToDepartment ∧
      (submitSurvey (initialState 0) 1 badProof sampleDept 2 [] 10).2.responses
        = (initialState 0).responses ∧
      (submitSurvey (initialState 0) 1 badProof sampleDept 2 [] 10).2.grants
        = (initialState 0).grants) :=
  ⟨by decide,
    submit_failure_atomic (initialState 0) 1 badProof sampleDept 2 [] 10
      .InvalidProof (by decide)⟩

end EmployeeSurvey

namespace EmployeeSurvey

/-- C4: in every state reachable from the initial state, each department
accumulator holds the sum and count of exactly the accepted submissions
whose plaintext department argument was that department (mod 2^32), and a
department with no accepted submission holds the zero (uninitialized)
accumulator. -/
theorem department_accumulator_trace (d : Nat) (ops : List Op) (c c2 : Nat)
    (h : deptTrace c2 (accepted (initialState d) ops) = []) :
    (run (initialState d) ops).departmentRatingSum c
      = ratingSum (deptTrace c (accepted (initialState d) ops)) % M32 ∧
    (run (initialState d) ops).departmentResponseCount c
      = (deptTrace c (accepted (initialState d) ops)).length % M32 ∧
    (run (initialState d) ops).departmentRatingSum c2 = 0 ∧
    (run (initialState d) ops).departmentResponseCount c2 = 0 := by
  have h1 := run_deptRatingSum ops c (initialState d) (by norm_num [initialState, M32])
  have h2 := run_deptResponseCount ops c (initialState d) (by norm_num [initialState, M32])
  have h3 := run_deptRatingSum ops c2 (initialState d) (by norm_num [initialState, M32])
  have h4 := run_deptResponseCount ops c2 (initialState d) (by norm_num [initialState, M32])
  refine ⟨?_, ?_, ?_, ?_⟩
  · rw [h1]; norm_num [initialState]
  · rw [h2]; norm_num [initialState]
  · rw [h3, h]; norm_num [initialState, ratingSum, M32]
  · rw [h4, h]; norm_num [initialState, M32]

/-- C4 witness: after one accepted submission to department 2, the
department-2 accumulator equals that submission's rating and count 1,
while department 3 is still the zero accumulator. -/
theorem department_accumulator_trace_witness :
    deptTrace 3 (accepted (initialState 0) [Op.submit 1 sampleRating sampleDept 2 [] 10]) = [] ∧
    ((run (initialState 0) [Op.submit 1 sampleRating sampleDept 2 [] 10]).departmentRatingSum 2
        = ratingSum (deptTrace 2 (accepted (initialState 0)
            [Op.submit 1 sampleRating sampleDept 2 [] 10])) % M32 ∧
      (run (initialState 0) [Op.submit 1 sampleRating sampleDept 2 [] 10]).departmentResponseCount 2
        = (deptTrace 2 (accepted (initialState 0)
            [Op.submit 1 sampleRating sampleDept 2 [] 10])).length % M32 ∧
      (run (initialState 0) [Op.submit 1 sampleRating sampleDept 2 [] 10]).departmentRatingSum 3 = 0 ∧
      (run (initialState 0) [Op.submit 1 sampleRating sampleDept 2 [] 10]).departmentResponseCount 3 = 0) :=
  ⟨by decide,
    department_accumulator_trace 0 [Op.submit 1 sampleRating sampleDept 2 [] 10] 2 3 (by decide)⟩

/-- C6: `addManager` fails with `Unauthorized` exactly when the caller's
manager flag is false; otherwise it succeeds, sets the target's flag, and
appends grants for the target on exactly the two global resources when at
least one response exists — and no grant at all when none does. -/
theorem addManager_spec (s : State) (caller target : Nat) :
    ((addManager s caller target).1 = .error .Unauthorized ↔ s.managers caller = false) ∧
    ((addManager s caller target).1
      = (if s.managers caller then .ok () else .error .Unauthorized)) ∧
    ((addManager s caller target).2.managers target
      = (if s.managers caller then true else s.managers target)) ∧
    ((addManager s caller target).2.grants
      = (if s.managers caller = true ∧ 0 < s.responses.length then
          s.grants ++ [(.addr target, .globalSum), (.addr target, .globalCount)]
        else s.grants)) := by
  by_cases hm : s.managers caller = true
  · by_cases hl : 0 < s.responses.length <;> simp [addManager, hm, hl]
  · simp [addManager, hm]

/-- C7: grants are irrevocable: an entry of the grant log survives every
sequence of transactions, and a successful `removeManager` clears only
the role flag, leaving the grant log intact. -/
theorem grant_log_monotone (s : State) (ops : List Op)
    (g : Grantee × Resource) (caller target : Nat)
    (hg : g ∈ s.grants) (hc : s.managers caller = true) :
    g ∈ (run s ops).grants ∧
    (removeManager s caller target).1 = .ok () ∧
    (removeManager s caller target).2.managers target = false ∧
    (removeManager s caller target).2.grants = s.grants := by
  refine ⟨run_grants_mono ops s g hg, ?_, ?_, ?_⟩ <;> simp [removeManager, hc]

/-- C7 witness: the deployer's grant on the global sum, issued by an
accepted submission, survives the deployer's own manager removal. -/
theorem grant_log_monotone_witness :
    (Grantee.addr 0, Resource.globalSum)
        ∈ (submitSurvey (initialState 0) 1 sampleRating sampleDept 2 [] 10).2.grants ∧
    (submitSurvey (initialState 0) 1 sampleRating sampleDept 2 [] 10).2.managers 0 = true ∧
    ((Grantee.addr 0, Resource.globalSum)
        ∈ (run (submitSurvey (initialState 0) 1 sampleRating sampleDept 2 [] 10).2
            [Op.removeMgr 0 0]).grants ∧
      (removeManager (submitSurvey (initialState 0) 1 sampleRating sampleDept 2 [] 10).2 0 0).1
        = .ok () ∧
      (removeManager (submitSurvey (initialState 0) 1 sampleRating sampleDept 2 [] 10).2 0 0).2.managers 0
        = false ∧
      (removeManager (submitSurvey (initialState 0) 1 sampleRating sampleDept 2 [] 10).2 0 0).2.grants
        = (submitSurvey (initialState 0) 1 sampleRating sampleDept 2 [] 10).2.grants) :=
  ⟨by decide, by decide,
    grant_log_monotone (submitSurvey (initialState 0) 1 sampleRating sampleDept 2 [] 10).2
      [Op.removeMgr 0 0] (Grantee.addr 0, Resource.globalSum) 0 0 (by decide) (by decide)⟩

/-- C8: the three statistic reads are gated solely on the live manager
flag — `Unauthorized` exactly when it is false, the stored opaque handles
returned unchanged otherwise — independent of the grant log; after a
successful `removeManager` the removed identity's reads fail with
`Unauthorized` while its earlier grant-log entries persist. -/
theorem manager_gated_reads (s : State) (who caller m c c2 : Nat)
    (hm : s.managers caller = true) :
    (getResponseCount s who
      = (if s.managers who then .ok s.responseCount else .error .Unauthorized)) ∧
    (getTotalRatingSum s who
      = (if s.managers who then .ok s.totalRatingSum else .error .Unauthorized)) ∧
    (getDepartmentStats s who c
      = (if s.managers who then
          .ok (s.departmentRatingSum c, s.departmentResponseCount c)
        else .error .Unauthorized)) ∧
    getResponseCount (removeManager s caller m).2 m = .error .Unauthorized ∧
    getTotalRatingSum (removeManager s caller m).2 m = .error .Unauthorized ∧
    getDepartmentStats (removeManager s caller m).2 m c2 = .error .Unauthorized ∧
    (removeManager s caller m).2.grants = s.grants := by
  have hpost : (removeManager s caller m).2.managers m = false := by
    simp [removeManager, hm]
  refine ⟨rfl, rfl, rfl, ?_, ?_, ?_, by simp [removeManager, hm]⟩ <;>
    simp [getResponseCount, getTotalRatingSum, getDepartmentStats, hpost]

/-- C8 witness: after an accepted submission the deployer holds grants;
removing the deployer's manager flag makes all three of its reads fail
with `Unauthorized` although those grants remain; a non-manager's read
fails and the stored handles are returned to managers unchanged. -/
theorem manager_gated_reads_witness :
    (submitSurvey (initialState 0) 1 sampleRating sampleDept 2 [] 10).2.managers 0 = true ∧
    ((getResponseCount (submitSurvey (initialState 0) 1 sampleRating sampleDept 2 [] 10).2 7
        = (if (submitSurvey (initialState 0) 1 sampleRating sampleDept 2 [] 10).2.managers 7 then
            .ok (submitSurvey (initialState 0) 1 sampleRating sampleDept 2 [] 10).2.responseCount
          else .error .Unauthorized)) ∧
      (getTotalRatingSum (submitSurvey (initialState 0) 1 sampleRating sampleDept 2 [] 10).2 7
        = (if (submitSurvey (initialState 0) 1 sampleRating sampleDept 2 [] 10).2.managers 7 then
            .ok (submitSurvey (initialState 0) 1 sampleRating sampleDept 2 [] 10).2.totalRatingSum
          else .error .Unauthorized)) ∧
      (getDepartmentStats (submitSurvey (initialState 0) 1 sampleRating sampleDept 2 [] 10).2 7 2
        = (if (submitSurvey (initialState 0) 1 sampleRating sampleDept 2 [] 10).2.managers 7 then
            .ok ((submitSurvey (initialState 0) 1 sampleRating sampleDept 2 [] 10).2.departmentRatingSum 2,
              (submitSurvey (initialState 0) 1 sampleRating sampleDept 2 [] 10).2.departmentResponseCount 2)
          else .error .Unauthorized)) ∧
      getResponseCount
        (removeManager (submitSurvey (initialState 0) 1 sampleRating sampleDept 2 [] 10).2 0 0).2 0
        = .error .Unauthorized ∧
      getTotalRatingSum
        (removeManager (submitSurvey (initialState 0) 1 sampleRating sampleDept 2 [] 10).2 0 0).2 0
        = .error .Unauthorized ∧
      getDepartmentStats
        (removeManager (submitSurvey (initialState 0) 1 sampleRating sampleDept 2 [] 10).2 0 0).2 0 2
        = .error .Unauthorized ∧
      (removeManager (submitSurvey (initialState 0) 1 sampleRating sampleDept 2 [] 10).2 0 0).2.grants
        = (submitSurvey (initialState 0) 1 sampleRating sampleDept 2 [] 10).2.grants) :=
  ⟨by decide,
    manager_gated_reads (submitSurvey (initialState 0) 1 sampleRating sampleDept 2 [] 10).2
      7 0 0 2 2 (by decide)⟩

end EmployeeSurvey

namespace EmployeeSurvey

/-- C9: every accepted submission appends grants on the global sum,
global count, and the submitted department's sum and count for exactly
the contract itself and the deployer recorded at construction —
independent of the deployer's current manager flag, and for no other
identity. -/
theorem submit_grants_deployer_only (s : State) (sender : Nat)
    (er ed : ExtInput) (pid : Nat) (fb : List Nat) (ts : Nat) (rid : Nat)
    (hok : (submitSurvey s sender er ed pid fb ts).1 = .ok rid) :
    (submitSurvey s sender er ed pid fb ts).2.grants = s.grants ++
      [(.self, .globalSum), (.self, .globalCount),
       (.addr s.deployer, .globalSum), (.addr s.deployer, .globalCount),
       (.self, .deptSum pid), (.self, .deptCount pid),
       (.addr s.deployer, .deptSum pid), (.addr s.deployer, .deptCount pid)] := by
  obtain ⟨h1, h2, h3, -⟩ := submit_ok_elim s sender er ed pid fb ts rid hok
  rw [submit_post s sender er ed pid fb ts h1 h2 h3]

/-- C9 witness: even after the deployer's manager flag was cleared, an
accepted submission still grants exactly the contract and the deployer on
the four updated resources. -/
theorem submit_grants_deployer_only_witness :
    (removeManager (initialState 0) 0 0).2.managers 0 = false ∧
    (submitSurvey (removeManager (initialState 0) 0 0).2 1 sampleRating sampleDept 2 [] 10).1
      = .ok 0 ∧
    (submitSurvey (removeManager (initialState 0) 0 0).2 1 sampleRating sampleDept 2 [] 10).2.grants
      = (removeManager (initialState 0) 0 0).2.grants ++
        [(.self, .globalSum), (.self, .globalCount),
         (.addr (removeManager (initialState 0) 0 0).2.deployer, .globalSum),
         (.addr (removeManager (initialState 0) 0 0).2.deployer, .globalCount),
         (.self, .deptSum 2), (.self, .deptCount 2),
         (.addr (removeManager (initialState 0) 0 0).2.deployer, .deptSum 2),
         (.addr (removeManager (initialState 0) 0 0).2.deployer, .deptCount 2)] :=
  ⟨by decide, by decide,
    submit_grants_deployer_only (removeManager (initialState 0) 0 0).2 1
      sampleRating sampleDept 2 [] 10 0 (by decide)⟩

/-- C10: two accepted submissions from the same state that differ only in
the encrypted department ciphertext (and its proof) produce identical
dedup tables, global and per-department accumulators, grant logs and
response-log lengths; the encrypted department value influences only the
appended record's departmentId field. -/
theorem submit_dept_cipher_independence (s : State) (sender : Nat)
    (er ed1 ed2 : ExtInput) (pid : Nat) (fb : List Nat) (ts : Nat)
    (rid1 rid2 : Nat)
    (h1 : (submitSurvey s sender er ed1 pid fb ts).1 = .ok rid1)
    (h2 : (submitSurvey s sender er ed2 pid fb ts).1 = .ok rid2) :
    (submitSurvey s sender er ed1 pid fb ts).2.hasSubmittedToDepartment
      = (submitSurvey s sender er ed2 pid fb ts).2.hasSubmittedToDepartment ∧
    (submitSurvey s sender er ed1 pid fb ts).2.totalRatingSum
      = (submitSurvey s sender er ed2 pid fb ts).2.totalRatingSum ∧
    (submitSurvey s sender er ed1 pid fb ts).2.responseCount
      = (submitSurvey s sender er ed2 pid fb ts).2.responseCount ∧
    (submitSurvey s sender er ed1 pid fb ts).2.departmentRatingSum
      = (submitSurvey s sender er ed2 pid fb ts).2.departmentRatingSum ∧
    (submitSurvey s sender er ed1 pid fb ts).2.departmentResponseCount
      = (submitSurvey s sender er ed2 pid fb ts).2.departmentResponseCount ∧
    (submitSurvey s sender er ed1 pid fb ts).2.grants
      = (submitSurvey s sender er ed2 pid fb ts).2.grants ∧
    (submitSurvey s sender er ed1 pid fb ts).2.responses.length
      = (submitSurvey s sender er ed2 pid fb ts).2.responses.length ∧
    (submitSurvey s sender er ed1 pid fb ts).2.responses.map publicFields
      = (submitSurvey s sender er ed2 pid fb ts).2.responses.map publicFields := by
  obtain ⟨ha1, ha2, ha3, -⟩ := submit_ok_elim s sender er ed1 pid fb ts rid1 h1
  obtain ⟨-, -, hb3, -⟩ := submit_ok_elim s sender er ed2 pid fb ts rid2 h2
  rw [submit_post s sender er ed1 pid fb ts ha1 ha2 ha3,
      submit_post s sender er ed2 pid fb ts ha1 ha2 hb3]
  exact ⟨rfl, rfl, rfl, rfl, rfl, rfl, by simp, by simp [publicFields]⟩

/-- C10 witness: two submissions differing only in the encrypted
department ciphertext (plaintexts 1 and 7) agree on every observable
except the stored departmentId handle. -/
theorem submit_dept_cipher_independence_witness :
    (submitSurvey (initialState 0) 1 sampleRating sampleDept 2 [] 10).1 = .ok 0 ∧
    (submitSurvey (initialState 0) 1 sampleRating sampleDept2 2 [] 10).1 = .ok 0 ∧
    ((submitSurvey (initialState 0) 1 sampleRating sampleDept 2 [] 10).2.hasSubmittedToDepartment
        = (submitSurvey (initialState 0) 1 sampleRating sampleDept2 2 [] 10).2.hasSubmittedToDepartment ∧
      (submitSurvey (initialState 0) 1 sampleRating sampleDept 2 [] 10).2.totalRatingSum
        = (submitSurvey (initialState 0) 1 sampleRating sampleDept2 2 [] 10).2.totalRatingSum ∧
      (submitSurvey (initialState 0) 1 sampleRating sampleDept 2 [] 10).2.responseCount
        = (submitSurvey (initialState 0) 1 sampleRating sampleDept2 2 [] 10).2.responseCount ∧
      (submitSurvey (initialState 0) 1 sampleRating sampleDept 2 [] 10).2.departmentRatingSum
        = (submitSurvey (initialState 0) 1 sampleRating sampleDept2 2 [] 10).2.departmentRatingSum ∧
      (submitSurvey (initialState 0) 1 sampleRating sampleDept 2 [] 10).2.departmentResponseCount
        = (submitSurvey (initialState 0) 1 sampleRating sampleDept2 2 [] 10).2.departmentResponseCount ∧
      (submitSurvey (initialState 0) 1 sampleRating sampleDept 2 [] 10).2.grants
        = (submitSurvey (initialState 0) 1 sampleRating sampleDept2 2 [] 10).2.grants ∧
      (submitSurvey (initialState 0) 1 sampleRating sampleDept 2 [] 10).2.responses.length
        = (submitSurvey (initialState 0) 1 sampleRating sampleDept2 2 [] 10).2.responses.length ∧
      (submitSurvey (initialState 0) 1 sampleRating sampleDept 2 [] 10).2.responses.map publicFields
        = (submitSurvey (initialState 0) 1 sampleRating sampleDept2 2 [] 10).2.responses.map publicFields) :=
  ⟨by decide, by decide,
    submit_dept_cipher_independence (initialState 0) 1 sampleRating sampleDept sampleDept2
      2 [] 10 0 0 (by decide) (by decide)⟩

/-- C1 counterexample: bob (address 1) is added as manager before any
submission; a later accepted submission grants bob nothing on the two
global accumulator resources, contradicting the claim that a submission
grants every current manager. -/
theorem submit_manager_grant_cex :
    (addManager (initialState 0) 0 1).1 = .ok () ∧
    (addManager (initialState 0) 0 1).2.managers 1 = true ∧
    (submitSurvey (addManager (initialState 0) 0 1).2 2 sampleRating sampleDept 3 [] 10).1
      = .ok 0 ∧
    (Grantee.addr 1, Resource.globalSum)
      ∉ (submitSurvey (addManager (initialState 0) 0 1).2 2 sampleRating sampleDept 3 [] 10).2.grants ∧
    (Grantee.addr 1, Resource.globalCount)
      ∉ (submitSurvey (addManager (initialState 0) 0 1).2 2 sampleRating sampleDept 3 [] 10).2.grants := by
  decide

/-- C1 (amended): after every accepted submission the contract itself is
granted on the four updated accumulator resources, and an address holds a
post-submission grant iff it already held it before or it is the deployer
paired with one of those four resources — current manager flags play no
role in the submission's grants. -/
theorem submit_grant_membership (s : State) (sender : Nat)
    (er ed : ExtInput) (pid : Nat) (fb : List Nat) (ts : Nat) (rid : Nat)
    (m : Nat) (r : Resource)
    (hok : (submitSurvey s sender er ed pid fb ts).1 = .ok rid) :
    (Grantee.self, Resource.globalSum) ∈ (submitSurvey s sender er ed pid fb ts).2.grants ∧
    (Grantee.self, Resource.globalCount) ∈ (submitSurvey s sender er ed pid fb ts).2.grants ∧
    (Grantee.self, Resource.deptSum pid) ∈ (submitSurvey s sender er ed pid fb ts).2.grants ∧
    (Grantee.self, Resource.deptCount pid) ∈ (submitSurvey s sender er ed pid fb ts).2.grants ∧
    ((Grantee.addr m, r) ∈ (submitSurvey s sender er ed pid fb ts).2.grants ↔
      ((Grantee.addr m, r) ∈ s.grants ∨
        (m = s.deployer ∧
          (r = .globalSum ∨ r = .globalCount ∨ r = .deptSum pid ∨ r = .deptCount pid)))) := by
  obtain ⟨h1, h2, h3, -⟩ := submit_ok_elim s sender er ed pid fb ts rid hok
  rw [submit_post s sender er ed pid fb ts h1 h2 h3]
  simp
  tauto

/-- C1 witness: with bob a manager and no prior grant for bob, an
accepted submission leaves bob without a grant on the global sum, while
the contract and the deployer are granted. -/
theorem submit_grant_membership_witness :
    (submitSurvey (addManager (initialState 0) 0 1).2 2 sampleRating sampleDept 3 [] 10).1
      = .ok 0 ∧
    ((Grantee.self, Resource.globalSum)
        ∈ (submitSurvey (addManager (initialState 0) 0 1).2 2 sampleRating sampleDept 3 [] 10).2.grants ∧
      (Grantee.self, Resource.globalCount)
        ∈ (submitSurvey (addManager (initialState 0) 0 1).2 2 sampleRating sampleDept 3 [] 10).2.grants ∧
      (Grantee.self, Resource.deptSum 3)
        ∈ (submitSurvey (addManager (initialState 0) 0 1).2 2 sampleRating sampleDept 3 [] 10).2.grants ∧
      (Grantee.self, Resource.deptCount 3)
        ∈ (submitSurvey (addManager (initialState 0) 0 1).2 2 sampleRating sampleDept 3 [] 10).2.grants ∧
      ((Grantee.addr 1, Resource.globalSum)
          ∈ (submitSurvey (addManager (initialState 0) 0 1).2 2 sampleRating sampleDept 3 [] 10).2.grants ↔
        ((Grantee.addr 1, Resource.globalSum) ∈ (addManager (initialState 0) 0 1).2.grants ∨
          (1 = (addManager (initialState 0) 0 1).2.deployer ∧
            (Resource.globalSum = .globalSum ∨ Resource.globalSum = .globalCount ∨
              Resource.globalSum = .deptSum 3 ∨ Resource.globalSum = .deptCount 3))))) :=
  ⟨by decide,
    submit_grant_membership (addManager (initialState 0) 0 1).2 2 sampleRating sampleDept
      3 [] 10 0 1 Resource.globalSum (by decide)⟩

end EmployeeSurvey
